import Mathlib

/-!
Verification of the registration/dispatch core and web-adapter glue of the
`mindmatrix` repository, shallowly embedded in Lean 4.

The repository contains two copies of the package:
  * `src/src/mindmatrix/...` (src-layout copy) — embedded in the
    `Mindmatrix` namespace below;
  * `src/mindmatrix/...` (flat-layout copy) — embedded in the
    `MindmatrixFlat` namespace below.
Definitions mirror the Python source line by line; logging is made
observable by returning the list of emitted warning messages, and Python
exceptions are made observable through the `Except`/`PyErr` types.
-/

/-- Observable Python exceptions raised by the embedded code. -/
inductive PyErr where
  /-- `raise ValueError(msg)` -/
  | valueError (msg : String)
  /-- Reading a local variable that was never bound
      (Python `UnboundLocalError`, as when a `for` loop body never ran). -/
  | unboundLocalError (varName : String)
  /-- `TypeError` raised by call-site keyword unpacking `f(**a, **b)` when
      a keyword occurs in both unpackings. -/
  | typeError (msg : String)
  /-- `raise HTTPException(status_code=..., detail=...)` -/
  | httpException (status : Nat) (detail : String)
deriving DecidableEq, Repr

/-! ## Python keyword-argument dictionaries

A Python `dict` is modelled as an association list in insertion order.
`dictGet` is `d[k]` as an `Option` (the *last* binding of a key wins,
matching repeated assignment), and `dictSet` is `d[k] = v` (overwrite in
place if the key exists, else append).  Call-site keyword unpacking
`f(**a, **b)` is *not* a dict merge: Python raises `TypeError` when a key
occurs in both unpackings (`callWithUnpackedKwargs` below). -/

/-- Lookup in a Python-dict model: the last binding of a key wins. -/
def dictGet {V : Type} (xs : List (String × V)) (k : String) : Option V :=
  (xs.reverse.find? (fun p => p.1 = k)).map (fun p => p.2)

/-- `d[k] = v`: overwrite every binding of `k` in place if present, else append. -/
def dictSet {V : Type} (xs : List (String × V)) (k : String) (v : V) :
    List (String × V) :=
  if xs.any (fun p => p.1 = k) then
    xs.map (fun p => if p.1 = k then (k, v) else p)
  else
    xs ++ [(k, v)]

/-- Python call-site keyword unpacking `f(**a, **b)`: while unpacking `b`
into the call dictionary, the first key of `b` already bound by `a` raises
`TypeError("... got multiple values for keyword argument 'k'")` (the
function-name prefix of the message is elided); when no key collides the
callee receives the entries of `a` followed by those of `b`. -/
def callWithUnpackedKwargs {V R : Type} (f : List (String × V) → R)
    (a b : List (String × V)) : Except PyErr R :=
  match b.find? (fun q => a.any (fun p => p.1 = q.1)) with
  | some q =>
    .error (.typeError
      ("got multiple values for keyword argument \x27" ++ q.1 ++ "\x27"))
  | none => .ok (f (a ++ b))

theorem dictGet_dictSet {V : Type} (xs : List (String × V)) (k k' : String)
    (v : V) :
    dictGet (dictSet xs k v) k' = if k' = k then some v else dictGet xs k' := by
  classical
  unfold dictGet dictSet
  by_cases hmem : xs.any (fun p => decide (p.1 = k))
  · simp only [hmem, if_true]
    rw [← List.map_reverse, List.find?_map]
    by_cases hk : k' = k
    · subst hk
      simp only [if_true]
      have hpred : ((fun q : String × V => decide (q.1 = k')) ∘
          fun p => if p.1 = k' then (k', v) else p) =
          fun p : String × V => decide (p.1 = k') := by
        funext p
        by_cases hp : p.1 = k' <;> simp [hp]
      rw [hpred]
      have hex : ∃ p ∈ xs.reverse, p.1 = k' := by
        rcases List.any_eq_true.mp hmem with ⟨p, hp, hpk⟩
        exact ⟨p, List.mem_reverse.mpr hp, by simpa using hpk⟩
      cases hfind : xs.reverse.find? (fun p => decide (p.1 = k')) with
      | none =>
        rcases hex with ⟨p, hp, hpk⟩
        have := List.find?_eq_none.mp hfind p hp
        simp [hpk] at this
      | some p =>
        have hpk : p.1 = k' := by simpa using List.find?_some hfind
        simp [hpk]
    · simp only [hk, if_false]
      have hpred : ((fun q : String × V => decide (q.1 = k')) ∘
          fun p => if p.1 = k then (k, v) else p) =
          fun p : String × V => decide (p.1 = k') := by
        funext p
        by_cases hp : p.1 = k
        · simp [hp]
        · simp [hp]
      rw [hpred]
      cases hfind : xs.reverse.find? (fun p => decide (p.1 = k')) with
      | none => simp
      | some p =>
        have hpk : p.1 = k' := by simpa using List.find?_some hfind
        have hpne : p.1 ≠ k := fun h => hk (hpk.symm.trans h)
        simp [hpne]
  · rw [if_neg hmem, List.reverse_append]
    have hrev : ([(k, v)] : List (String × V)).reverse = [(k, v)] := rfl
    rw [hrev]
    by_cases hk : k' = k
    · subst hk
      rw [List.cons_append, List.find?_cons_of_pos]
      · simp
      · simp
    · rw [if_neg hk, List.cons_append, List.find?_cons_of_neg]
      · rw [List.nil_append]
      · simp
        exact fun h => hk h.symm

namespace Mindmatrix

/-- `VectorDbRegistration` dataclass (name + constructed vector-db handle). -/
structure VectorDbRegistration (D : Type) where
  name : String
  vector_db : D
deriving DecidableEq, Repr

/-- `AgentRegistration` dataclass (name + factory + config). -/
structure AgentRegistration (V R : Type) where
  name : String
  agent_factory : List (String × V) → R
  agent_config : List (String × V)

/-- `WorkflowRegistration` dataclass (name + factory + config). -/
structure WorkflowRegistration (V R : Type) where
  name : String
  workflow_factory : List (String × V) → R
  workflow_config : List (String × V)

/-- `TaskRegistration` dataclass (name + constructed Prefect task handle). -/
structure TaskRegistration (T : Type) where
  name : String
  task : T
deriving DecidableEq, Repr

/-- `MindMatrix.has_vectordb` -/
def has_vectordb {D : Type} (vectordbs : List (VectorDbRegistration D))
    (vectordb_name : String) : Bool :=
  vectordbs.any (fun registration => registration.name = vectordb_name)

/-- `MindMatrix.has_agent` -/
def has_agent {V R : Type} (agent_factories : List (AgentRegistration V R))
    (agent_name : String) : Bool :=
  agent_factories.any (fun registration => registration.name = agent_name)

/-- `MindMatrix.has_workflow` -/
def has_workflow {V R : Type}
    (workflow_factories : List (WorkflowRegistration V R))
    (workflow_name : String) : Bool :=
  workflow_factories.any (fun registration => registration.name = workflow_name)

/-- `MindMatrix.register_vectordb`: warns when the name is already
registered, then appends regardless.  Returns (new list, warnings logged). -/
def register_vectordb {D : Type} (vectordbs : List (VectorDbRegistration D))
    (vectordb_name : String) (vectordb : D) :
    List (VectorDbRegistration D) × List String :=
  (vectordbs ++ [⟨vectordb_name, vectordb⟩],
   if has_vectordb vectordbs vectordb_name then
     ["Vector database for " ++ vectordb_name ++ " already registered."]
   else [])

/-- `MindMatrix.register_agent_factory`: warns when the name is already
registered, then appends regardless.  Returns (new list, warnings logged). -/
def register_agent_factory {V R : Type}
    (agent_factories : List (AgentRegistration V R)) (agent_name : String)
    (agent_factory : List (String × V) → R)
    (agent_config : List (String × V)) :
    List (AgentRegistration V R) × List String :=
  (agent_factories ++ [⟨agent_name, agent_factory, agent_config⟩],
   if has_agent agent_factories agent_name then
     ["Agent factory for " ++ agent_name ++ " already registered."]
   else [])

/-- `MindMatrix.register_workflow_factory`: warns when the name is already
registered, then appends regardless (`workflow_config=None` defaults to the
empty dict at the call site of this model).  Returns (new list, warnings). -/
def register_workflow_factory {V R : Type}
    (workflow_factories : List (WorkflowRegistration V R))
    (workflow_name : String) (workflow_factory : List (String × V) → R)
    (workflow_config : List (String × V)) :
    List (WorkflowRegistration V R) × List String :=
  (workflow_factories ++ [⟨workflow_name, workflow_factory, workflow_config⟩],
   if has_workflow workflow_factories workflow_name then
     ["Workflow factory for " ++ workflow_name ++ " already registered."]
   else [])

/-- `MindMatrix.register_task`: appends with no duplicate check and no
warning (the source body is a bare append).  Returns (new list, warnings
logged — always none). -/
def register_task {T : Type} (tasks : List (TaskRegistration T))
    (task_name : String) (task : T) :
    List (TaskRegistration T) × List String :=
  (tasks ++ [⟨task_name, task⟩], [])

/-- `MindMatrix.get_vectordb`: forward scan, first match returned.  When no
record matches, the `raise ValueError(f"Vector database for
{registration.name} not found")` reads the *loop variable* `registration`,
i.e. the last record iterated — or is unbound when the list is empty. -/
def get_vectordb {D : Type} (vectordbs : List (VectorDbRegistration D))
    (vectordb_name : String) : Except PyErr D :=
  match vectordbs.find? (fun registration => registration.name = vectordb_name) with
  | some registration => .ok registration.vector_db
  | none =>
    match vectordbs.getLast? with
    | some registration =>
      .error (.valueError ("Vector database for " ++ registration.name ++ " not found"))
    | none => .error (.unboundLocalError "registration")

/-- `MindMatrix.get_agent`: forward scan; on the first matching record the
call is `registration.agent_factory(self, **registration.agent_config,
**kwargs)` — call-site unpacking, which raises `TypeError` on a key
present in both dicts (the orchestrator handle `self`, passed
positionally, is outside this model). -/
def get_agent {V R : Type} (agent_factories : List (AgentRegistration V R))
    (agent_name : String) (kwargs : List (String × V)) : Except PyErr R :=
  match agent_factories with
  | [] => .error (.valueError ("Agent factory for " ++ agent_name ++ " not found"))
  | registration :: rest =>
    if registration.name = agent_name then
      callWithUnpackedKwargs registration.agent_factory
        registration.agent_config kwargs
    else
      get_agent rest agent_name kwargs

/-- `MindMatrix.get_workflow`: forward scan; on the first matching record
the call is `registration.workflow_factory(self,
**registration.workflow_config, **kwargs)` — call-site unpacking, raising
`TypeError` on a key present in both dicts. -/
def get_workflow {V R : Type}
    (workflow_factories : List (WorkflowRegistration V R))
    (workflow_name : String) (kwargs : List (String × V)) : Except PyErr R :=
  match workflow_factories with
  | [] => .error (.valueError ("Workflow factory for " ++ workflow_name ++ " not found"))
  | registration :: rest =>
    if registration.name = workflow_name then
      callWithUnpackedKwargs registration.workflow_factory
        registration.workflow_config kwargs
    else
      get_workflow rest workflow_name kwargs

/-- `MindMatrix.get_task`: forward scan, first match returned. -/
def get_task {T : Type} (tasks : List (TaskRegistration T))
    (task_name : String) : Except PyErr T :=
  match tasks.find? (fun registration => registration.name = task_name) with
  | some registration => .ok registration.task
  | none => .error (.valueError ("Task for " ++ task_name ++ " not found"))

end Mindmatrix

/-! ## Task runner of the src-layout copy

`MindMatrix.async_run_task` resolves the task, inspects the declared
parameter names of `task.fn` (`inspect.signature`), and injects
`kwargs["vectordb_provider"] = VectorDbProvider(self)` and
`kwargs["agent_provider"] = AgentProvider(self)` when (and only when) the
function declares a parameter with that exact name.  Injected provider
values are distinguished constructors so that injection is observable. -/

/-- A value passed to a task function: either a caller-supplied value or
one of the two providers injected by the task runner. -/
inductive TaskArg (V : Type) where
  | plain (v : V)
  | vectordbProvider
  | agentProvider
deriving DecidableEq, Repr

/-- Model of a registered Prefect task: the declared parameter names of
`task.fn` (as reported by `inspect.signature`) and the function itself,
consuming its keyword-argument dictionary. -/
structure TaskFn (V R : Type) where
  params : List String
  fn : List (String × TaskArg V) → R

namespace Mindmatrix

/-- The keyword arguments `async_run_task` passes to `task.fn`
(src-layout copy): lines 276–281 of `src/src/mindmatrix/_mindmatrix.py`. -/
def injected_kwargs {V : Type} (params : List String)
    (kwargs : List (String × TaskArg V)) : List (String × TaskArg V) :=
  let kwargs1 :=
    if params.contains "vectordb_provider" then
      dictSet kwargs "vectordb_provider" .vectordbProvider
    else kwargs
  if params.contains "agent_provider" then
    dictSet kwargs1 "agent_provider" .agentProvider
  else kwargs1

/-- `MindMatrix.async_run_task` (src-layout copy): resolve the task, then
call `task.fn` with the injected keyword arguments. -/
def async_run_task {V R T : Type} (tasks : List (TaskRegistration T))
    (task_fn : T → TaskFn V R) (task_name : String)
    (kwargs : List (String × TaskArg V)) : Except PyErr R :=
  match get_task tasks task_name with
  | .error e => .error e
  | .ok t =>
    .ok ((task_fn t).fn (injected_kwargs (task_fn t).params kwargs))

end Mindmatrix

/-! ## The flat-layout copy (`src/mindmatrix/_mindmatrix.py`)

Same data model; differences from the src-layout copy that matter here:
no `register_*` method logs a duplicate warning, `get_workflow` invokes the
factory with `**registration.workflow_config` only (the call-time `kwargs`
are accepted by the method signature but never passed on), and
`async_run_task` injects only `vectordb_provider`. -/

namespace MindmatrixFlat

/-- `MindMatrix.get_agent` (flat copy): forward scan; first match invokes
`registration.agent_factory(**registration.agent_config, **kwargs)` —
call-site unpacking, raising `TypeError` on a key present in both dicts. -/
def get_agent {V R : Type}
    (agent_factories : List (Mindmatrix.AgentRegistration V R))
    (agent_name : String) (kwargs : List (String × V)) : Except PyErr R :=
  match agent_factories with
  | [] => .error (.valueError ("Agent factory for " ++ agent_name ++ " not found"))
  | registration :: rest =>
    if registration.name = agent_name then
      callWithUnpackedKwargs registration.agent_factory
        registration.agent_config kwargs
    else
      get_agent rest agent_name kwargs

/-- `MindMatrix.get_workflow` (flat copy, lines 182–190): forward scan; the
first match invokes `registration.workflow_factory(**registration.workflow_config)`
— the call-time `kwargs` accepted by the method are **not** passed on. -/
def get_workflow {V R : Type}
    (workflow_factories : List (Mindmatrix.WorkflowRegistration V R))
    (workflow_name : String) (kwargs : List (String × V)) : Except PyErr R :=
  match workflow_factories with
  | [] => .error (.valueError ("Workflow factory for " ++ workflow_name ++ " not found"))
  | registration :: rest =>
    if registration.name = workflow_name then
      .ok (registration.workflow_factory registration.workflow_config)
    else
      get_workflow rest workflow_name kwargs

/-- `MindMatrix.get_vectordb` (flat copy, lines 163–170): identical body to
the src-layout copy, including the `registration.name` in the error. -/
def get_vectordb {D : Type}
    (vectordbs : List (Mindmatrix.VectorDbRegistration D))
    (vectordb_name : String) : Except PyErr D :=
  Mindmatrix.get_vectordb vectordbs vectordb_name

/-- The keyword arguments `async_run_task` passes to `task.fn`
(flat copy, lines 213–217): only `vectordb_provider` is ever injected. -/
def injected_kwargs {V : Type} (params : List String)
    (kwargs : List (String × TaskArg V)) : List (String × TaskArg V) :=
  if params.contains "vectordb_provider" then
    dictSet kwargs "vectordb_provider" .vectordbProvider
  else kwargs

/-- `MindMatrix.async_run_task` (flat copy). -/
def async_run_task {V R T : Type}
    (tasks : List (Mindmatrix.TaskRegistration T)) (task_fn : T → TaskFn V R)
    (task_name : String) (kwargs : List (String × TaskArg V)) :
    Except PyErr R :=
  match Mindmatrix.get_task tasks task_name with
  | .error e => .error e
  | .ok t =>
    .ok ((task_fn t).fn (injected_kwargs (task_fn t).params kwargs))

end MindmatrixFlat

/-! ## Dispatch provider (`src/mindmatrix/web/_app.py`, `AgentProvider`)

`AgentProvider.__call__(agent_name, type_, **kwargs)` dispatches on the
`type_` tag: `"agent"` delegates to `MindMatrix.get_agent`, `"workflow"`
to `MindMatrix.get_workflow`, anything else raises
`ValueError(f"Invalid type: {type_}, must be 'agent' or 'workflow'")`. -/

namespace AgentProvider

/-- `AgentProvider.__call__`.  The result is tagged with the domain the
call was delegated to (`Sum.inl` = agent, `Sum.inr` = workflow). -/
def call {V R W : Type}
    (agent_factories : List (Mindmatrix.AgentRegistration V R))
    (workflow_factories : List (Mindmatrix.WorkflowRegistration V W))
    (agent_name : String) (type_ : String) (kwargs : List (String × V)) :
    Except PyErr (R ⊕ W) :=
  if type_ = "agent" then
    (MindmatrixFlat.get_agent agent_factories agent_name kwargs).map Sum.inl
  else if type_ = "workflow" then
    (MindmatrixFlat.get_workflow workflow_factories agent_name kwargs).map Sum.inr
  else
    .error (.valueError
      ("Invalid type: " ++ type_ ++ ", must be \x27agent\x27 or \x27workflow\x27"))

end AgentProvider

/-! ## Context store (`src/mindmatrix/web/_contextvars.py`)

`session_id_var = contextvars.ContextVar("session_id", default=None)` with
wrappers `get_current_session_id` / `set_current_session_id`.  Per the
Python `contextvars` semantics (PEP 567) on which the source relies, each
logical request executes in its own `Context`: `ContextVar.set` writes only
the current context and `ContextVar.get` reads only the current context,
returning the declared default (`None`) when the variable was never set
there.  The worker interleaving is modelled as an arbitrary sequence of
`set` operations tagged with the logical request performing them. -/

/-- One step of an interleaved execution: logical request `req` calls
`set_current_session_id(value)`. -/
structure SessionOp (ReqId : Type) where
  req : ReqId
  value : String
deriving DecidableEq, Repr

/-- The per-request contents of `session_id_var`: `none` is the declared
default of the `ContextVar`. -/
def SessionState (ReqId : Type) : Type := ReqId → Option String

/-- The state before any request ran: every context holds the default. -/
def initialSessionState (ReqId : Type) : SessionState ReqId := fun _ => none

/-- `set_current_session_id` executed by request `r`: `session_id_var.set`
writes only the context of the current logical request. -/
def set_current_session_id {ReqId : Type} [DecidableEq ReqId]
    (s : SessionState ReqId) (r : ReqId) (session_id : String) :
    SessionState ReqId :=
  fun r2 => if r2 = r then some session_id else s r2

/-- `get_current_session_id` executed by request `r`: `session_id_var.get()`
reads the context of the current logical request only. -/
def get_current_session_id {ReqId : Type} (s : SessionState ReqId)
    (r : ReqId) : Option String :=
  s r

/-- Run an arbitrary interleaving of `set_current_session_id` calls from
the initial state. -/
def runSessionOps {ReqId : Type} [DecidableEq ReqId]
    (ops : List (SessionOp ReqId)) : SessionState ReqId :=
  ops.foldl (fun s op => set_current_session_id s op.req op.value)
    (initialSessionState ReqId)

/-- The last value request `r` itself wrote in the trace, if any. -/
def lastWriteOf {ReqId : Type} [DecidableEq ReqId]
    (ops : List (SessionOp ReqId)) (r : ReqId) : Option String :=
  (ops.reverse.find? (fun op => op.req = r)).map (fun op => op.value)

/-! ## Background memory update (`src/mindmatrix/agent_base/_base.py`)

`BaseAgent._arun` step 4 dispatches
`asyncio.create_task(self._aupdate_memory_background(...))` and never
awaits it; `_aupdate_memory_background` drains `self._aupdate_memory(...)`
inside `try/except Exception`, logging and discarding any error.  The
underlying `_aupdate_memory` drain is modelled by its outcome: `.ok ()`
when it completes, `.error e` when it raises. -/

/-- Observable outcome of one run of the detached background task:
the log lines it emitted and the exception it let escape (if any). -/
structure BgRun where
  logs : List String
  raised : Option String
deriving DecidableEq, Repr

/-- `BaseAgent._aupdate_memory_background`: drain the memory update; catch
any exception, log `f"后台内存更新失败: {e}"`, and do not re-raise. -/
def aupdate_memory_background (update : Except String Unit) : BgRun :=
  match update with
  | .ok _ => ⟨[], none⟩
  | .error e => ⟨["后台内存更新失败: " ++ e], none⟩

/-- The tail of `BaseAgent._arun` from step 4 on: the background update is
spawned (second component) and the response path returns `run_response`
(first component) without reading the spawned task's outcome. -/
def arun_after_model {R : Type} (run_response : R)
    (memory_update : Except String Unit) : R × BgRun :=
  (run_response, aupdate_memory_background memory_update)

/-! ## Chat-completion user-message extraction
(`src/src/mindmatrix/web/_openai_adapter.py` and `_sse_adapter.py`)

`extract_user_message` raises `HTTPException(400, "No messages provided")`
on an empty list, scans `reversed(messages)` for the first message with
`role == "user"`, and then tests the extracted content for Python
falsiness (`if not user_message`), raising
`HTTPException(400, "No user message found")` when the loop found nothing
*or* when the found content is the empty string. -/

/-- One chat message of the request body. -/
structure ChatMessage where
  role : String
  content : String
deriving DecidableEq, Repr

namespace OpenAIAdapter

/-- `OpenAIAdapter.extract_user_message` (lines 54–71). -/
def extract_user_message (messages : List ChatMessage) :
    Except PyErr String :=
  if messages.isEmpty then
    .error (.httpException 400 "No messages provided")
  else
    match messages.reverse.find? (fun msg => msg.role = "user") with
    | some msg =>
      if msg.content = "" then
        .error (.httpException 400 "No user message found")
      else
        .ok msg.content
    | none => .error (.httpException 400 "No user message found")

end OpenAIAdapter

namespace SSEAdapter

/-- `SSEAdapter.extract_user_message` (lines 29–46): the body is textually
identical to `OpenAIAdapter.extract_user_message`. -/
def extract_user_message (messages : List ChatMessage) :
    Except PyErr String :=
  OpenAIAdapter.extract_user_message messages

end SSEAdapter

/-! ## HTTP client wrappers (`src/mindmatrix/utils/http_client.py`)

`AsyncHttpClient._request` / `SyncHttpClient._request` perform the request
inside `try/except`: `response.raise_for_status()` turns any non-2xx
status into `httpx.HTTPStatusError`, caught and returned as
`{"status": code, "error": str(exc)}`; `httpx.RequestError`
(connection/transport failure) is caught and returned as
`{"status": None, "error": str(exc)}`; otherwise the parsed JSON body (or
the raw text when JSON parsing fails) is returned as
`{"status": code, "data": ...}`.  The network outcome and the JSON parser
are inputs of the model. -/

/-- What the underlying `httpx` call produced: a response with a status
code and body, or a transport failure (`httpx.RequestError`). -/
inductive HttpAttempt (B : Type) where
  | response (status : Nat) (body : B)
  | requestError (msg : String)
deriving DecidableEq, Repr

/-- The structured result dictionary returned by `_request`. -/
structure RequestResult (D : Type) where
  status : Option Nat
  data : Option D
  error : Option String
deriving DecidableEq, Repr

/-- `httpx` success statuses: `raise_for_status()` raises for any other. -/
def is_success (status : Nat) : Bool :=
  200 ≤ status && status < 300

/-- The `str(exc)` of the `httpx.HTTPStatusError` raised by
`raise_for_status()`: its exact text is produced by `httpx`; the model
only needs it to be a message determined by the status code. -/
def httpStatusErrorText (status : Nat) : String :=
  "HTTPStatusError for status " ++ toString status

namespace AsyncHttpClient

/-- `AsyncHttpClient._request` (lines 24–35), as a function of the network
outcome and of the JSON parser (`response.json()` succeeding iff `parse`
returns `some`; `Sum.inl` = parsed JSON, `Sum.inr` = raw text fallback). -/
def request {B J : Type} (parse : B → Option J) (attempt : HttpAttempt B) :
    RequestResult (J ⊕ B) :=
  match attempt with
  | .response status body =>
    if is_success status then
      match parse body with
      | some j => ⟨some status, some (Sum.inl j), none⟩
      | none => ⟨some status, some (Sum.inr body), none⟩
    else
      ⟨some status, none, some (httpStatusErrorText status)⟩
  | .requestError msg => ⟨none, none, some msg⟩

end AsyncHttpClient

namespace SyncHttpClient

/-- `SyncHttpClient._request` (lines 76–87): textually identical body to
`AsyncHttpClient._request`. -/
def request {B J : Type} (parse : B → Option J) (attempt : HttpAttempt B) :
    RequestResult (J ⊕ B) :=
  AsyncHttpClient.request parse attempt

end SyncHttpClient

/-! ## Helper lemmas -/

theorem Mindmatrix.get_agent_cons {V R : Type}
    (q : Mindmatrix.AgentRegistration V R)
    (rest : List (Mindmatrix.AgentRegistration V R)) (agent_name : String)
    (kwargs : List (String × V)) :
    Mindmatrix.get_agent (q :: rest) agent_name kwargs =
      if q.name = agent_name then
        callWithUnpackedKwargs q.agent_factory q.agent_config kwargs
      else Mindmatrix.get_agent rest agent_name kwargs := rfl

theorem Mindmatrix.get_workflow_cons {V R : Type}
    (q : Mindmatrix.WorkflowRegistration V R)
    (rest : List (Mindmatrix.WorkflowRegistration V R))
    (workflow_name : String) (kwargs : List (String × V)) :
    Mindmatrix.get_workflow (q :: rest) workflow_name kwargs =
      if q.name = workflow_name then
        callWithUnpackedKwargs q.workflow_factory q.workflow_config kwargs
      else Mindmatrix.get_workflow rest workflow_name kwargs := rfl

theorem Mindmatrix.get_agent_append_of_has {V R : Type}
    (regs : List (Mindmatrix.AgentRegistration V R)) (agent_name : String)
    (kwargs : List (String × V)) (r : Mindmatrix.AgentRegistration V R)
    (h : Mindmatrix.has_agent regs agent_name = true) :
    Mindmatrix.get_agent (regs ++ [r]) agent_name kwargs =
      Mindmatrix.get_agent regs agent_name kwargs := by
  induction regs with
  | nil => simp [Mindmatrix.has_agent] at h
  | cons q rest ih =>
    rw [List.cons_append, Mindmatrix.get_agent_cons, Mindmatrix.get_agent_cons]
    by_cases hq : q.name = agent_name
    · rw [if_pos hq, if_pos hq]
    · rw [if_neg hq, if_neg hq]
      apply ih
      have h2 := List.any_eq_true.mp h
      rcases h2 with ⟨p, hp, hpk⟩
      rcases List.mem_cons.mp hp with rfl | hp2
      · exact absurd (by simpa using hpk) hq
      · exact List.any_eq_true.mpr ⟨p, hp2, hpk⟩

theorem Mindmatrix.get_workflow_append_of_has {V R : Type}
    (regs : List (Mindmatrix.WorkflowRegistration V R))
    (workflow_name : String) (kwargs : List (String × V))
    (r : Mindmatrix.WorkflowRegistration V R)
    (h : Mindmatrix.has_workflow regs workflow_name = true) :
    Mindmatrix.get_workflow (regs ++ [r]) workflow_name kwargs =
      Mindmatrix.get_workflow regs workflow_name kwargs := by
  induction regs with
  | nil => simp [Mindmatrix.has_workflow] at h
  | cons q rest ih =>
    rw [List.cons_append, Mindmatrix.get_workflow_cons,
      Mindmatrix.get_workflow_cons]
    by_cases hq : q.name = workflow_name
    · rw [if_pos hq, if_pos hq]
    · rw [if_neg hq, if_neg hq]
      apply ih
      have h2 := List.any_eq_true.mp h
      rcases h2 with ⟨p, hp, hpk⟩
      rcases List.mem_cons.mp hp with rfl | hp2
      · exact absurd (by simpa using hpk) hq
      · exact List.any_eq_true.mpr ⟨p, hp2, hpk⟩

theorem Mindmatrix.get_vectordb_append_of_has {D : Type}
    (regs : List (Mindmatrix.VectorDbRegistration D)) (vectordb_name : String)
    (r : Mindmatrix.VectorDbRegistration D)
    (h : Mindmatrix.has_vectordb regs vectordb_name = true) :
    Mindmatrix.get_vectordb (regs ++ [r]) vectordb_name =
      Mindmatrix.get_vectordb regs vectordb_name := by
  rcases List.any_eq_true.mp h with ⟨p, hp, hpk⟩
  cases hf : regs.find? (fun registration => registration.name = vectordb_name) with
  | none =>
    have := List.find?_eq_none.mp hf p hp
    exact absurd hpk this
  | some reg =>
    unfold Mindmatrix.get_vectordb
    rw [List.find?_append, hf, Option.or_some]

theorem Mindmatrix.get_task_append_of_any {T : Type}
    (regs : List (Mindmatrix.TaskRegistration T)) (task_name : String)
    (r : Mindmatrix.TaskRegistration T)
    (h : regs.any (fun registration => registration.name = task_name) = true) :
    Mindmatrix.get_task (regs ++ [r]) task_name =
      Mindmatrix.get_task regs task_name := by
  rcases List.any_eq_true.mp h with ⟨p, hp, hpk⟩
  cases hf : regs.find? (fun registration => registration.name = task_name) with
  | none =>
    have := List.find?_eq_none.mp hf p hp
    exact absurd hpk this
  | some reg =>
    unfold Mindmatrix.get_task
    rw [List.find?_append, hf, Option.or_some]

theorem lastWriteOf_cons {ReqId : Type} [DecidableEq ReqId]
    (op : SessionOp ReqId) (ops : List (SessionOp ReqId)) (r : ReqId) :
    lastWriteOf (op :: ops) r =
      (lastWriteOf ops r).or (if op.req = r then some op.value else none) := by
  unfold lastWriteOf
  rw [List.reverse_cons, List.find?_append]
  cases h : ops.reverse.find? (fun o => decide (o.req = r)) with
  | some o => simp [Option.or]
  | none =>
    by_cases hp : op.req = r
    · simp [Option.or, List.find?, hp]
    · simp [Option.or, List.find?, hp]

theorem foldl_set_session {ReqId : Type} [DecidableEq ReqId]
    (ops : List (SessionOp ReqId)) (s : SessionState ReqId) (r : ReqId) :
    (ops.foldl (fun st op => set_current_session_id st op.req op.value) s) r =
      (lastWriteOf ops r).or (s r) := by
  induction ops generalizing s with
  | nil => simp [lastWriteOf]
  | cons op ops ih =>
    rw [List.foldl_cons, ih, lastWriteOf_cons, Option.or_assoc]
    by_cases hr : r = op.req
    · rw [if_pos hr.symm, Option.or_some]
      have hset : set_current_session_id s op.req op.value r = some op.value := by
        show (if r = op.req then some op.value else s r) = some op.value
        rw [if_pos hr]
      rw [hset]
    · rw [if_neg (fun h => hr h.symm), Option.none_or]
      have hset : set_current_session_id s op.req op.value r = s r := by
        show (if r = op.req then some op.value else s r) = s r
        rw [if_neg hr]
      rw [hset]

/-! ## Claim theorems -/

/-- C1 (counterexample): in the task domain, registering a binding under a
name that is already registered logs no warning at all —
`MindMatrix.register_task` has no duplicate check — refuting the claim
that every domain warns on duplicate registration. -/
theorem C1_task_duplicate_registration_no_warning :
    ((Mindmatrix.register_task ([] : List (Mindmatrix.TaskRegistration Nat))
        "embed_documents" 0).1).any
      (fun registration => registration.name = "embed_documents") = true
    ∧ (Mindmatrix.register_task
        (Mindmatrix.register_task ([] : List (Mindmatrix.TaskRegistration Nat))
          "embed_documents" 0).1 "embed_documents" 1).2 = [] :=
  ⟨rfl, rfl⟩

/-- C1 (amended): in the agent, workflow and vector-database domains,
registering under an already-registered name logs a warning and appends the
record without removing the first one, and a subsequent resolve returns the
first-registered binding's result; in the task domain the record is
likewise appended and resolution is first-match, but no warning is ever
logged. -/
theorem C1_duplicate_registration_warns_and_first_wins
    (V R W D T : Type)
    (agents : List (Mindmatrix.AgentRegistration V R))
    (workflows : List (Mindmatrix.WorkflowRegistration V W))
    (vectordbs : List (Mindmatrix.VectorDbRegistration D))
    (tasks : List (Mindmatrix.TaskRegistration T))
    (name : String) (fac : List (String × V) → R) (cfg : List (String × V))
    (wfac : List (String × V) → W) (wcfg : List (String × V))
    (db : D) (task : T)
    (ha : Mindmatrix.has_agent agents name = true)
    (hw : Mindmatrix.has_workflow workflows name = true)
    (hd : Mindmatrix.has_vectordb vectordbs name = true)
    (ht : tasks.any (fun registration => registration.name = name) = true) :
    ((Mindmatrix.register_agent_factory agents name fac cfg).1
        = agents ++ [⟨name, fac, cfg⟩]
      ∧ (Mindmatrix.register_agent_factory agents name fac cfg).2
        = ["Agent factory for " ++ name ++ " already registered."]
      ∧ ∀ kwargs, Mindmatrix.get_agent
          (Mindmatrix.register_agent_factory agents name fac cfg).1 name kwargs
          = Mindmatrix.get_agent agents name kwargs)
    ∧ ((Mindmatrix.register_workflow_factory workflows name wfac wcfg).1
        = workflows ++ [⟨name, wfac, wcfg⟩]
      ∧ (Mindmatrix.register_workflow_factory workflows name wfac wcfg).2
        = ["Workflow factory for " ++ name ++ " already registered."]
      ∧ ∀ kwargs, Mindmatrix.get_workflow
          (Mindmatrix.register_workflow_factory workflows name wfac wcfg).1
          name kwargs
          = Mindmatrix.get_workflow workflows name kwargs)
    ∧ ((Mindmatrix.register_vectordb vectordbs name db).1
        = vectordbs ++ [⟨name, db⟩]
      ∧ (Mindmatrix.register_vectordb vectordbs name db).2
        = ["Vector database for " ++ name ++ " already registered."]
      ∧ Mindmatrix.get_vectordb (Mindmatrix.register_vectordb vectordbs name db).1 name
          = Mindmatrix.get_vectordb vectordbs name)
    ∧ ((Mindmatrix.register_task tasks name task).1 = tasks ++ [⟨name, task⟩]
      ∧ (Mindmatrix.register_task tasks name task).2 = []
      ∧ Mindmatrix.get_task (Mindmatrix.register_task tasks name task).1 name
          = Mindmatrix.get_task tasks name) := by
  refine ⟨⟨rfl, ?_, ?_⟩, ⟨rfl, ?_, ?_⟩, ⟨rfl, ?_, ?_⟩, rfl, rfl, ?_⟩
  · simp [Mindmatrix.register_agent_factory, ha]
  · exact fun kwargs =>
      Mindmatrix.get_agent_append_of_has agents name kwargs ⟨name, fac, cfg⟩ ha
  · simp [Mindmatrix.register_workflow_factory, hw]
  · exact fun kwargs =>
      Mindmatrix.get_workflow_append_of_has workflows name kwargs
        ⟨name, wfac, wcfg⟩ hw
  · simp [Mindmatrix.register_vectordb, hd]
  · exact Mindmatrix.get_vectordb_append_of_has vectordbs name ⟨name, db⟩ hd
  · exact Mindmatrix.get_task_append_of_any tasks name ⟨name, task⟩ ht

/-- C1 (witness): instantiation of the amended claim on singleton
registries already holding the name "dup". -/
theorem C1_duplicate_registration_witness :
    (Mindmatrix.register_agent_factory
        [(⟨"dup", fun _ => 0, []⟩ : Mindmatrix.AgentRegistration Nat Nat)]
        "dup" (fun _ => 1) []).2
      = ["Agent factory for dup already registered."]
    ∧ Mindmatrix.get_agent
        (Mindmatrix.register_agent_factory
          [(⟨"dup", fun _ => 0, []⟩ : Mindmatrix.AgentRegistration Nat Nat)]
          "dup" (fun _ => 1) []).1 "dup" []
      = Mindmatrix.get_agent
          [(⟨"dup", fun _ => 0, []⟩ : Mindmatrix.AgentRegistration Nat Nat)]
          "dup" []
    ∧ (Mindmatrix.register_task
        [(⟨"dup", 0⟩ : Mindmatrix.TaskRegistration Nat)] "dup" 1).2 = []
    ∧ Mindmatrix.get_task
        (Mindmatrix.register_task
          [(⟨"dup", 0⟩ : Mindmatrix.TaskRegistration Nat)] "dup" 1).1 "dup"
      = Mindmatrix.get_task
          [(⟨"dup", 0⟩ : Mindmatrix.TaskRegistration Nat)] "dup" := by
  have h := C1_duplicate_registration_warns_and_first_wins Nat Nat Nat Nat Nat
    [⟨"dup", fun _ => 0, []⟩] [⟨"dup", fun _ => 0, []⟩] [⟨"dup", 0⟩]
    [⟨"dup", 0⟩] "dup" (fun _ => 1) [] (fun _ => 1) [] 1 1 rfl rfl rfl rfl
  exact ⟨h.1.2.1, h.1.2.2 [], h.2.2.2.2.1, h.2.2.2.2.2⟩

/-- C3: `get_vectordb` on an unregistered name does not identify the
requested name: with only "faiss" registered, requesting "milvus" raises
`ValueError("Vector database for faiss not found")` (the loop variable's
name, not the requested one), and with an empty registry the error
reference `registration` is unbound (`UnboundLocalError`), in both copies
of the package. -/
theorem C3_get_vectordb_misreports_name :
    Mindmatrix.get_vectordb
        [(⟨"faiss", 0⟩ : Mindmatrix.VectorDbRegistration Nat)] "milvus"
      = .error (.valueError "Vector database for faiss not found")
    ∧ Mindmatrix.get_vectordb
        ([] : List (Mindmatrix.VectorDbRegistration Nat)) "milvus"
      = .error (.unboundLocalError "registration")
    ∧ MindmatrixFlat.get_vectordb
        [(⟨"faiss", 0⟩ : Mindmatrix.VectorDbRegistration Nat)] "milvus"
      = .error (.valueError "Vector database for faiss not found") :=
  ⟨rfl, rfl, rfl⟩

/-- C4 (counterexample): in the src-layout task runner, a task whose
function declares no parameter named "vectordb_provider" can still receive
an extra injected argument: declaring `agent_provider` makes the runner
inject an agent provider, so the final keyword arguments are not the
caller's. -/
theorem C4_task_without_vectordb_param_gets_injection :
    ((["agent_provider"] : List String).contains "vectordb_provider") = false
    ∧ Mindmatrix.async_run_task
        [(⟨"t", ⟨["agent_provider"], fun kwargs => kwargs⟩⟩ :
          Mindmatrix.TaskRegistration (TaskFn Nat (List (String × TaskArg Nat))))]
        (fun t => t) "t" []
      = .ok [("agent_provider", TaskArg.agentProvider)] :=
  ⟨rfl, rfl⟩

/-- C4 (amended): the async task runner passes a vector-database provider
under the keyword "vectordb_provider" iff the task function declares a
parameter with that exact name; a task declaring neither
"vectordb_provider" nor "agent_provider" receives exactly the caller's
keyword arguments (the src-layout runner also injects an agent provider
under "agent_provider" by the same rule; the flat-layout runner injects
only the vector-database provider). -/
theorem C4_vectordb_provider_injection
    (V R T : Type) (tasks : List (Mindmatrix.TaskRegistration T))
    (task_fn : T → TaskFn V R) (task_name : String)
    (kwargs : List (String × TaskArg V)) (t : T)
    (hres : Mindmatrix.get_task tasks task_name = .ok t) :
    Mindmatrix.async_run_task tasks task_fn task_name kwargs
      = .ok ((task_fn t).fn
          (Mindmatrix.injected_kwargs (task_fn t).params kwargs))
    ∧ ((task_fn t).params.contains "vectordb_provider" = true →
        dictGet (Mindmatrix.injected_kwargs (task_fn t).params kwargs)
          "vectordb_provider" = some TaskArg.vectordbProvider)
    ∧ ((task_fn t).params.contains "vectordb_provider" = false →
        dictGet (Mindmatrix.injected_kwargs (task_fn t).params kwargs)
          "vectordb_provider" = dictGet kwargs "vectordb_provider")
    ∧ ((task_fn t).params.contains "vectordb_provider" = false →
        (task_fn t).params.contains "agent_provider" = false →
        Mindmatrix.injected_kwargs (task_fn t).params kwargs = kwargs)
    ∧ ((task_fn t).params.contains "vectordb_provider" = true →
        dictGet (MindmatrixFlat.injected_kwargs (task_fn t).params kwargs)
          "vectordb_provider" = some TaskArg.vectordbProvider)
    ∧ ((task_fn t).params.contains "vectordb_provider" = false →
        MindmatrixFlat.injected_kwargs (task_fn t).params kwargs = kwargs) := by
  refine ⟨?_, ?_, ?_, ?_, ?_, ?_⟩
  · unfold Mindmatrix.async_run_task
    rw [hres]
  · intro hc
    have hm : "vectordb_provider" ∈ (task_fn t).params := by simpa using hc
    by_cases hag : "agent_provider" ∈ (task_fn t).params
    · simp [Mindmatrix.injected_kwargs, hm, hag, dictGet_dictSet]
    · simp [Mindmatrix.injected_kwargs, hm, hag, dictGet_dictSet]
  · intro hc
    have hm : ¬ "vectordb_provider" ∈ (task_fn t).params := by simpa using hc
    by_cases hag : "agent_provider" ∈ (task_fn t).params
    · simp [Mindmatrix.injected_kwargs, hm, hag, dictGet_dictSet]
    · simp [Mindmatrix.injected_kwargs, hm, hag]
  · intro hc hag
    have hm : ¬ "vectordb_provider" ∈ (task_fn t).params := by simpa using hc
    have ham : ¬ "agent_provider" ∈ (task_fn t).params := by simpa using hag
    simp [Mindmatrix.injected_kwargs, hm, ham]
  · intro hc
    have hm : "vectordb_provider" ∈ (task_fn t).params := by simpa using hc
    simp [MindmatrixFlat.injected_kwargs, hm, dictGet_dictSet]
  · intro hc
    have hm : ¬ "vectordb_provider" ∈ (task_fn t).params := by simpa using hc
    simp [MindmatrixFlat.injected_kwargs, hm]

/-- C4 (witness): a task declaring exactly ["vectordb_provider"], invoked
with no caller kwargs, receives the injected provider. -/
theorem C4_vectordb_provider_injection_witness :
    Mindmatrix.async_run_task
        [(⟨"t", ⟨["vectordb_provider"], fun kwargs => kwargs⟩⟩ :
          Mindmatrix.TaskRegistration (TaskFn Nat (List (String × TaskArg Nat))))]
        (fun t => t) "t" []
      = .ok [("vectordb_provider", TaskArg.vectordbProvider)]
    ∧ dictGet (Mindmatrix.injected_kwargs ["vectordb_provider"]
          ([] : List (String × TaskArg Nat))) "vectordb_provider"
      = some TaskArg.vectordbProvider := by
  have h := C4_vectordb_provider_injection Nat (List (String × TaskArg Nat))
    (TaskFn Nat (List (String × TaskArg Nat)))
    [⟨"t", ⟨["vectordb_provider"], fun kwargs => kwargs⟩⟩] (fun t => t) "t" []
    ⟨["vectordb_provider"], fun kwargs => kwargs⟩ rfl
  exact ⟨h.1, h.2.1 rfl⟩

/-- C5: `AgentProvider.__call__` with a `type_` tag that is neither
"agent" nor "workflow" raises the invalid-type `ValueError`; with "agent"
it delegates to the agent resolver and with "workflow" to the workflow
resolver. -/
theorem C5_agent_provider_call_dispatch
    (V R W : Type)
    (agents : List (Mindmatrix.AgentRegistration V R))
    (workflows : List (Mindmatrix.WorkflowRegistration V W))
    (agent_name : String) (kwargs : List (String × V)) (type_ : String) :
    (type_ ≠ "agent" → type_ ≠ "workflow" →
      AgentProvider.call agents workflows agent_name type_ kwargs
        = .error (.valueError ("Invalid type: " ++ type_ ++
            ", must be \x27agent\x27 or \x27workflow\x27")))
    ∧ AgentProvider.call agents workflows agent_name "agent" kwargs
        = (MindmatrixFlat.get_agent agents agent_name kwargs).map Sum.inl
    ∧ AgentProvider.call agents workflows agent_name "workflow" kwargs
        = (MindmatrixFlat.get_workflow workflows agent_name kwargs).map Sum.inr := by
  refine ⟨?_, ?_, ?_⟩
  · intro h1 h2
    unfold AgentProvider.call
    rw [if_neg h1, if_neg h2]
  · unfold AgentProvider.call
    rw [if_pos rfl]
  · unfold AgentProvider.call
    rw [if_neg (by decide), if_pos rfl]

/-- C5 (witness): `provide(name, kind="bogus")` fails with the
invalid-argument error; `kind="agent"` delegates to the agent resolver. -/
theorem C5_agent_provider_call_dispatch_witness :
    AgentProvider.call ([] : List (Mindmatrix.AgentRegistration Nat Nat))
        ([] : List (Mindmatrix.WorkflowRegistration Nat Nat)) "chatter" "bogus" []
      = .error (.valueError
          "Invalid type: bogus, must be \x27agent\x27 or \x27workflow\x27")
    ∧ AgentProvider.call ([] : List (Mindmatrix.AgentRegistration Nat Nat))
        ([] : List (Mindmatrix.WorkflowRegistration Nat Nat)) "chatter" "agent" []
      = (MindmatrixFlat.get_agent
          ([] : List (Mindmatrix.AgentRegistration Nat Nat)) "chatter" []).map
          Sum.inl := by
  have h := C5_agent_provider_call_dispatch Nat Nat Nat [] [] "chatter" [] "bogus"
  have h2 := C5_agent_provider_call_dispatch Nat Nat Nat [] [] "chatter" [] "agent"
  exact ⟨h.1 (by decide) (by decide), h2.2.1⟩

/-- C6: under the per-logical-request context semantics of
`session_id_var`, for any interleaving of `set_current_session_id` calls
by concurrent requests, a read by request `r` yields the last value `r`
itself wrote — in particular "A" for a request whose last write was "A"
and "B" for one whose last write was "B", regardless of interleaving —
and a read by a request that never wrote yields the default `none`, never
another request's value. -/
theorem C6_session_context_isolation
    (ReqId : Type) [DecidableEq ReqId] (ops : List (SessionOp ReqId)) :
    (∀ r v, lastWriteOf ops r = some v →
      get_current_session_id (runSessionOps ops) r = some v)
    ∧ (∀ r, (∀ op ∈ ops, op.req ≠ r) →
      get_current_session_id (runSessionOps ops) r = none) := by
  constructor
  · intro r v hlast
    have h := foldl_set_session ops (initialSessionState ReqId) r
    show (ops.foldl (fun st op => set_current_session_id st op.req op.value)
      (initialSessionState ReqId)) r = some v
    rw [h, hlast, Option.or_some]
  · intro r hnone
    have hlw : lastWriteOf ops r = none := by
      unfold lastWriteOf
      rw [List.find?_eq_none.mpr]
      · rfl
      · intro op hop
        simpa using hnone op (List.mem_reverse.mp hop)
    have h := foldl_set_session ops (initialSessionState ReqId) r
    show (ops.foldl (fun st op => set_current_session_id st op.req op.value)
      (initialSessionState ReqId)) r = none
    rw [h, hlw, Option.none_or]
    rfl

/-- C6 (witness): the interleaving where request 1 writes "A" and then
request 2 writes "B": request 1 reads "A", request 2 reads "B", and a
request that never wrote reads the default. -/
theorem C6_session_context_isolation_witness :
    get_current_session_id
        (runSessionOps ([⟨1, "A"⟩, ⟨2, "B"⟩] : List (SessionOp Nat))) 1
      = some "A"
    ∧ get_current_session_id
        (runSessionOps ([⟨1, "A"⟩, ⟨2, "B"⟩] : List (SessionOp Nat))) 2
      = some "B"
    ∧ get_current_session_id
        (runSessionOps ([⟨1, "A"⟩, ⟨2, "B"⟩] : List (SessionOp Nat))) 3
      = none := by
  have h := C6_session_context_isolation Nat [⟨1, "A"⟩, ⟨2, "B"⟩]
  refine ⟨h.1 1 "A" rfl, h.1 2 "B" rfl, h.2 3 ?_⟩
  decide

/-- C7: the response path of `BaseAgent._arun` returns `run_response`
whatever the spawned background memory update does (it is dispatched, not
awaited), and `_aupdate_memory_background` never lets an exception escape:
a failing update is logged and discarded. -/
theorem C7_background_update_never_propagates
    (R : Type) (run_response : R) (update update2 : Except String Unit) :
    (arun_after_model run_response update).1 = run_response
    ∧ (arun_after_model run_response update).1
      = (arun_after_model run_response update2).1
    ∧ (aupdate_memory_background update).raised = none
    ∧ (∀ e, update = .error e →
        (aupdate_memory_background update).logs = ["后台内存更新失败: " ++ e]) := by
  refine ⟨rfl, rfl, ?_, ?_⟩
  · cases update <;> rfl
  · intro e he
    subst he
    rfl

/-- C7 (witness): a background update that raises "boom" does not change
the returned response, raises nothing outward, and logs the failure. -/
theorem C7_background_update_witness :
    (arun_after_model (42 : Nat) (.error "boom")).1 = 42
    ∧ (aupdate_memory_background (.error "boom")).raised = none
    ∧ (aupdate_memory_background (Except.error "boom")).logs
      = ["后台内存更新失败: boom"] := by
  have h := C7_background_update_never_propagates Nat 42 (.error "boom") (.ok ())
  exact ⟨h.1, h.2.2.1, h.2.2.2 "boom" rfl⟩

/-- C8 (counterexample): a message list containing a user message with
non-empty content ("hi") followed by a later user message with empty
content is rejected with 400 "No user message found" instead of returning
"hi": the scan takes the *last* user-role message and then tests its
content for falsiness. -/
theorem C8_nonempty_user_message_still_rejected :
    (∃ m ∈ ([⟨"user", "hi"⟩, ⟨"user", ""⟩] : List ChatMessage),
      m.role = "user" ∧ m.content ≠ "")
    ∧ OpenAIAdapter.extract_user_message [⟨"user", "hi"⟩, ⟨"user", ""⟩]
      = .error (.httpException 400 "No user message found")
    ∧ SSEAdapter.extract_user_message [⟨"user", "hi"⟩, ⟨"user", ""⟩]
      = .error (.httpException 400 "No user message found") :=
  ⟨by decide, rfl, rfl⟩

/-- C8 (amended): an empty message list yields 400 "No messages provided";
a non-empty list with no user-role message yields 400 "No user message
found"; when the *last* user-role message has non-empty content,
extraction returns that content and raises nothing — in both adapters,
whose extraction bodies coincide. -/
theorem C8_extract_user_message_amended (messages : List ChatMessage) :
    (messages = [] →
      OpenAIAdapter.extract_user_message messages
        = .error (.httpException 400 "No messages provided"))
    ∧ (messages ≠ [] → (∀ m ∈ messages, m.role ≠ "user") →
      OpenAIAdapter.extract_user_message messages
        = .error (.httpException 400 "No user message found"))
    ∧ (∀ m, messages.reverse.find? (fun msg => msg.role = "user") = some m →
      m.content ≠ "" →
      OpenAIAdapter.extract_user_message messages = .ok m.content)
    ∧ SSEAdapter.extract_user_message messages
      = OpenAIAdapter.extract_user_message messages := by
  refine ⟨?_, ?_, ?_, rfl⟩
  · intro h
    subst h
    rfl
  · intro hne hno
    have hE : messages.isEmpty = false := by
      cases messages with
      | nil => exact absurd rfl hne
      | cons a l => rfl
    have hfind : messages.reverse.find? (fun msg => msg.role = "user") = none := by
      rw [List.find?_eq_none]
      intro x hx
      simpa using hno x (List.mem_reverse.mp hx)
    simp [OpenAIAdapter.extract_user_message, hE, hfind]
  · intro m hfind hcontent
    have hE : messages.isEmpty = false := by
      cases messages with
      | nil => simp at hfind
      | cons a l => rfl
    simp [OpenAIAdapter.extract_user_message, hE, hfind, hcontent]

/-- C8 (witness): extraction on a list whose last user message is
non-empty returns it; on the empty list and on a user-free list the two
400 errors arise. -/
theorem C8_extract_user_message_witness :
    OpenAIAdapter.extract_user_message [⟨"system", "s"⟩, ⟨"user", "hi"⟩]
      = .ok "hi"
    ∧ OpenAIAdapter.extract_user_message []
      = .error (.httpException 400 "No messages provided")
    ∧ OpenAIAdapter.extract_user_message [⟨"assistant", "a"⟩]
      = .error (.httpException 400 "No user message found") := by
  have h1 := C8_extract_user_message_amended [⟨"system", "s"⟩, ⟨"user", "hi"⟩]
  have h2 := C8_extract_user_message_amended []
  have h3 := C8_extract_user_message_amended [⟨"assistant", "a"⟩]
  exact ⟨h1.2.2.1 ⟨"user", "hi"⟩ rfl (by decide), h2.1 rfl,
    h3.2.1 (by decide) (by decide)⟩

/-- C9: the HTTP client `_request` wrappers never raise: a non-2xx
response yields `{"status": code, "error": msg}`, a transport failure
yields `{"status": None, "error": msg}`, a 2xx response yields
`{"status": code, "data": parsed-or-text}`; the error field is absent
exactly on 2xx responses, and the sync wrapper behaves identically. -/
theorem C9_http_request_structured_errors
    (B J : Type) (parse : B → Option J) (attempt : HttpAttempt B) :
    (∀ status body, attempt = .response status body →
      is_success status = false →
      AsyncHttpClient.request parse attempt
        = ⟨some status, none, some (httpStatusErrorText status)⟩)
    ∧ (∀ msg, attempt = .requestError msg →
      AsyncHttpClient.request parse attempt = ⟨none, none, some msg⟩)
    ∧ (∀ status body, attempt = .response status body →
      is_success status = true →
      AsyncHttpClient.request parse attempt
        = ⟨some status, some ((parse body).elim (Sum.inr body) Sum.inl), none⟩)
    ∧ ((AsyncHttpClient.request parse attempt).error = none ↔
      ∃ status body, attempt = .response status body ∧ is_success status = true)
    ∧ SyncHttpClient.request parse attempt
      = AsyncHttpClient.request parse attempt := by
  refine ⟨?_, ?_, ?_, ?_, rfl⟩
  · intro status body ha hs
    subst ha
    simp [AsyncHttpClient.request, hs]
  · intro msg ha
    subst ha
    rfl
  · intro status body ha hs
    subst ha
    cases hp : parse body with
    | some j => simp [AsyncHttpClient.request, hs, hp, Option.elim]
    | none => simp [AsyncHttpClient.request, hs, hp, Option.elim]
  · constructor
    · intro he
      cases attempt with
      | requestError msg => simp [AsyncHttpClient.request] at he
      | response status body =>
        cases hsv : is_success status with
        | true => exact ⟨status, body, rfl, hsv⟩
        | false => simp [AsyncHttpClient.request, hsv] at he
    · rintro ⟨status, body, rfl, hs⟩
      cases hp : parse body with
      | some j => simp [AsyncHttpClient.request, hs, hp]
      | none => simp [AsyncHttpClient.request, hs, hp]

/-- C9 (witness): a 404 response, a refused connection and a 200 response
with unparsable JSON body each yield the structured dictionary. -/
theorem C9_http_request_witness :
    AsyncHttpClient.request (fun _ : String => (none : Option Nat))
        (.response 404 "nope")
      = ⟨some 404, none, some (httpStatusErrorText 404)⟩
    ∧ AsyncHttpClient.request (fun _ : String => (none : Option Nat))
        (.requestError "connection refused")
      = ⟨none, none, some "connection refused"⟩
    ∧ AsyncHttpClient.request (fun _ : String => (none : Option Nat))
        (.response 200 "ok")
      = ⟨some 200, some (Sum.inr "ok"), none⟩ := by
  have h1 := C9_http_request_structured_errors String Nat (fun _ => none)
    (.response 404 "nope")
  have h2 := C9_http_request_structured_errors String Nat (fun _ => none)
    (.requestError "connection refused")
  have h3 := C9_http_request_structured_errors String Nat (fun _ => none)
    (.response 200 "ok")
  exact ⟨h1.1 404 "nope" rfl rfl, h2.2.1 "connection refused" rfl,
    h3.2.2.1 200 "ok" rfl rfl⟩

/-- C10: a request whose only user-role message has empty-string content
is rejected with the same 400 "No user message found" error as a request
with no user-role message at all, because extraction tests the extracted
content for falsiness — in both adapters. -/
theorem C10_only_user_message_empty_rejected (messages : List ChatMessage)
    (m : ChatMessage) (hne : messages ≠ []) (hm : m ∈ messages)
    (hrole : m.role = "user") (hcontent : m.content = "")
    (honly : ∀ m2 ∈ messages, m2.role = "user" → m2 = m) :
    OpenAIAdapter.extract_user_message messages
      = .error (.httpException 400 "No user message found")
    ∧ (∀ ms : List ChatMessage, ms ≠ [] → (∀ x ∈ ms, x.role ≠ "user") →
      OpenAIAdapter.extract_user_message ms
        = .error (.httpException 400 "No user message found"))
    ∧ SSEAdapter.extract_user_message messages
      = .error (.httpException 400 "No user message found") := by
  have hmain : OpenAIAdapter.extract_user_message messages
      = .error (.httpException 400 "No user message found") := by
    have hE : messages.isEmpty = false := by
      cases messages with
      | nil => exact absurd rfl hne
      | cons a l => rfl
    cases hfind : messages.reverse.find? (fun msg => msg.role = "user") with
    | none => simp [OpenAIAdapter.extract_user_message, hE, hfind]
    | some m2 =>
      have hm2role : m2.role = "user" := by simpa using List.find?_some hfind
      have hm2mem : m2 ∈ messages :=
        List.mem_reverse.mp (List.mem_of_find?_eq_some hfind)
      have hm2 : m2 = m := honly m2 hm2mem hm2role
      subst hm2
      simp [OpenAIAdapter.extract_user_message, hE, hfind, hcontent]
  refine ⟨hmain, ?_, hmain⟩
  intro ms hne2 hno
  have hE : ms.isEmpty = false := by
    cases ms with
    | nil => exact absurd rfl hne2
    | cons a l => rfl
  have hfind : ms.reverse.find? (fun msg => msg.role = "user") = none := by
    rw [List.find?_eq_none]
    intro x hx
    simpa using hno x (List.mem_reverse.mp hx)
  simp [OpenAIAdapter.extract_user_message, hE, hfind]

/-- C10 (witness): the request whose only message is a user message with
empty content receives exactly the no-user-message 400, as does a request
with only a system message. -/
theorem C10_only_user_message_empty_witness :
    OpenAIAdapter.extract_user_message [⟨"user", ""⟩]
      = .error (.httpException 400 "No user message found")
    ∧ OpenAIAdapter.extract_user_message [⟨"system", "s"⟩]
      = .error (.httpException 400 "No user message found") := by
  have h := C10_only_user_message_empty_rejected [⟨"user", ""⟩] ⟨"user", ""⟩
    (by decide) (by decide) rfl rfl (by decide)
  exact ⟨h.1, h.2.1 [⟨"system", "s"⟩] (by decide) (by decide)⟩
